import Mathlib

/-!
Verification of the markdown-to-Typst documentation builder
(`manual/build.py`) against its natural-language specification.

The Python source is embedded shallowly: strings are Lean `String`s
(manipulated through their `List Char` data), the per-line rewriter of
`convert_markdown_section` is a structurally recursive function over the
list of lines, and a Python exception escaping a function is an
`Except.error`.

A central fact about the source, established by inspecting the file and
the semantics of CPython's `re` and `str` operations, drives much of the
embedding: the file systematically doubles its backslashes.  Concretely:

* `markdown.split('\\n')` and `'\\n'.join(...)` operate on the literal
  two-character sequence backslash-`n`, not on the newline character;
* the bold pattern `r'\\*\\*([^*]+)\\*\\*'` denotes (zero or more
  backslashes)(zero or more backslashes)(one or more non-asterisks)(zero
  or more backslashes)(zero or more backslashes), i.e. it matches every
  maximal nonempty run of non-asterisk characters, and its template
  `r'*\\1*'` inserts the literal three characters `*`, backslash, `1`
  followed by `*` (in a `re` template `\\` is an escaped backslash, so no
  group reference remains); the italic pattern `r'\\*([^*]+)\\*'` behaves
  the same way with `_` delimiters;
* the inline-code template `r'#raw("\\1")'` likewise inserts the literal
  text `#raw("\1")`, discarding the captured group;
* the link pattern `r'\\[([^\\]]+)\\]\\(([^)]+)\\)'` is *syntactically
  invalid*: its first `[` opens a character class `[([^\\]` closed by the
  first unescaped `]`, after which `]+` is a literal atom and the
  following `)` is an unbalanced closing parenthesis, so `re.sub` raises
  `re.error("unbalanced parenthesis at position 11")` on every call,
  whatever the subject line.

Consequently every line that reaches the substitution block (any line,
while outside a code block, that does not start with a backtick fence and
does not start with `#`) makes `convert_markdown_section` raise.  Only
fence lines, code-block interiors and heading lines are processed
successfully.
-/

set_option linter.unusedVariables false
set_option maxRecDepth 8192

namespace RataBuild

/-- The exceptions the embedded code can raise.  `reUnbalancedParen` is
`re.error("unbalanced parenthesis at position 11")`, raised by compiling
the malformed link pattern. -/
inductive PyExn where
  | reUnbalancedParen
deriving DecidableEq, Repr

/-! ## Python string primitives, over `List Char` -/

/-- Whether the two-character sequence backslash-`n` occurs in the list.
This is the separator `build.py` actually splits and joins on (its
`'\\n'` literals contain a backslash and the letter `n`). -/
def hasTok : List Char → Bool
  | [] => false
  | [_] => false
  | c1 :: c2 :: rest => (c1 == '\\' && c2 == 'n') || hasTok (c2 :: rest)

/-- `markdown.split('\\n')` at line 186: split on the literal
two-character sequence backslash-`n`, leftmost first, non-overlapping. -/
def splitLitNL : List Char → List (List Char)
  | [] => [[]]
  | [c] => [[c]]
  | c1 :: c2 :: rest =>
    if c1 == '\\' && c2 == 'n' then [] :: splitLitNL rest
    else
      match splitLitNL (c2 :: rest) with
      | [] => [[c1]]
      | l :: ls => (c1 :: l) :: ls

/-- `'\\n'.join(...)` at lines 182 and 253: interpose the literal
two-character sequence backslash-`n`. -/
def interData : List (List Char) → List Char
  | [] => []
  | [l] => l
  | l1 :: l2 :: rest => l1 ++ '\\' :: 'n' :: interData (l2 :: rest)

/-- Python `str.isspace` / the character set stripped by `str.strip()`:
ASCII whitespace, the C1 separators, and the Unicode space characters. -/
def pyIsSpace (c : Char) : Bool :=
  let n := c.toNat
  (9 ≤ n && n ≤ 13) || (28 ≤ n && n ≤ 32) || n == 0x85 || n == 0xa0 ||
    n == 0x1680 || (0x2000 ≤ n && n ≤ 0x200a) || n == 0x2028 ||
    n == 0x2029 || n == 0x202f || n == 0x205f || n == 0x3000

/-- Python `str.strip()` with no argument. -/
def stripCL (cs : List Char) : List Char :=
  ((cs.dropWhile pyIsSpace).reverse.dropWhile pyIsSpace).reverse

/-- Python `line.lstrip('#')`. -/
def lstripHashCL (cs : List Char) : List Char :=
  cs.dropWhile (fun c => c == '#')

/-- Boolean prefix test (Python `str.startswith`), needle first. -/
def isPrefixCL : List Char → List Char → Bool
  | [], _ => true
  | _ :: _, [] => false
  | p :: ps, c :: cs => p == c && isPrefixCL ps cs

/-- Python `needle in hay` substring containment. -/
def containsCL (needle : List Char) : List Char → Bool
  | [] => needle.isEmpty
  | c :: rest => isPrefixCL needle (c :: rest) || containsCL needle rest

/-- Python `line.split('|')` (single-character separator). -/
def splitCharCL (sep : Char) : List Char → List (List Char)
  | [] => [[]]
  | c :: rest =>
    if c == sep then [] :: splitCharCL sep rest
    else
      match splitCharCL sep rest with
      | [] => [[c]]
      | l :: ls => (c :: l) :: ls

/-- `', '.join(...)` used when assembling a table row. -/
def interCommaSpace : List (List Char) → List Char
  | [] => []
  | [l] => l
  | l1 :: l2 :: rest => l1 ++ ',' :: ' ' :: interCommaSpace (l2 :: rest)

/-! ## String-level wrappers -/

def hasLitNL (s : String) : Bool := hasTok s.data

def splitLines (s : String) : List String :=
  (splitLitNL s.data).map (fun l => String.mk l)

def joinLitNL (ls : List String) : String :=
  String.mk (interData (ls.map String.data))

def pyStrip (s : String) : String := String.mk (stripCL s.data)

def pyStartswith (s pre : String) : Bool := isPrefixCL pre.data s.data

def pyIn (needle hay : String) : Bool := containsCL needle.data hay.data

/-- Python `s[n:]`. -/
def strDrop (s : String) (n : Nat) : String := String.mk (s.data.drop n)

/-- Python `l[-n:]`. -/
def lastN (n : Nat) (l : List String) : List String := l.drop (l.length - n)

/-! ## The four `re.sub` calls (lines 223-232)

Their behaviour was established by running CPython's `re` on the exact
pattern and template literals appearing in the source; the embedding
implements that behaviour directly. -/

/-- The replacement text produced by the template `r'#raw("\\1")'`:
the literal characters `#raw("\1")` (with a real backslash), the group
being discarded because `\\` escapes to a backslash in a template. -/
def rawRepl : List Char := "#raw(\"\\1\")".data

/-- One pass of `re.sub` for the inline-code pattern: the first
argument is `none` while scanning outside a span and `some pending`
(pending reversed) after an opening backtick whose span is still open.
A backtick span with nonempty backtick-free content is replaced by
`rawRepl`; unmatched or empty-content backticks are left literal. -/
def inlinePass : Option (List Char) → List Char → List Char
  | none, [] => []
  | none, '`' :: rest => inlinePass (some []) rest
  | none, c :: rest => c :: inlinePass none rest
  | some pending, [] => '`' :: pending.reverse
  | some pending, '`' :: rest =>
    if pending.isEmpty then '`' :: inlinePass (some []) rest
    else rawRepl ++ inlinePass none rest
  | some pending, c :: rest => inlinePass (some (c :: pending)) rest

/-- Line 223, `re.sub(r'`([^`]+)`', r'#raw("\\1")', line)`. -/
def reSubInlineCode (s : String) : String :=
  String.mk (inlinePass none s.data)

/-- Replace every maximal nonempty run of non-asterisk characters by
`repl`, keeping asterisks: the matching behaviour shared by the bold and
italic patterns once their doubled backslashes are parsed (each
`\\*` is a backslash atom under a `*` quantifier).  The flag records
whether we are inside a run that has already been replaced. -/
def starPass (repl : List Char) (inRun : Bool) : List Char → List Char
  | [] => []
  | '*' :: rest => '*' :: starPass repl false rest
  | c :: rest =>
    if inRun then starPass repl true rest
    else repl ++ starPass repl true rest

/-- Line 226, `re.sub(r'\\*\\*([^*]+)\\*\\*', r'*\\1*', line)`:
every maximal run of non-asterisks becomes the literal text
asterisk-backslash-one-asterisk. -/
def reSubBold (s : String) : String :=
  String.mk (starPass "*\\1*".data false s.data)

/-- Line 229, `re.sub(r'\\*([^*]+)\\*', r'_\\1_', line)`: same matches,
replacement underscore-backslash-one-underscore. -/
def reSubItalic (s : String) : String :=
  String.mk (starPass "_\\1_".data false s.data)

/-- Line 232, `re.sub(r'\\[([^\\]]+)\\]\\(([^)]+)\\)', ...)`: the pattern
fails to compile (its first `[` opens the character class `[([^\\]`,
leaving `]+` as a literal atom and the next `)` unbalanced), so the call
raises `re.error` regardless of the line. -/
def reSubLink (line : String) : Except PyExn String :=
  .error PyExn.reUnbalancedParen

/-! ## `convert_markdown_section` (lines 184-253) -/

/-- The per-line loop of `convert_markdown_section`: `acc` is
`typst_lines`, `icb` is `in_code_block`.  The code after the link
substitution (tables, paragraph handling) is retained faithfully even
though `reSubLink` makes it unreachable. -/
def processLines : List String → Bool → List String → Except PyExn (List String)
  | acc, _, [] => .ok acc
  | acc, icb, line :: rest =>
    if pyStartswith line "```" then
      if icb then processLines (acc ++ ["```"]) false rest
      else
        let parts := pyStrip (strDrop line 3)
        if parts = "" then processLines (acc ++ ["```"]) true rest
        else if parts = "rata" then
          processLines (acc ++ ["#rata-code[```rata"]) true rest
        else processLines (acc ++ ["```" ++ parts]) true rest
    else if icb then processLines (acc ++ [line]) true rest
    else if pyStartswith line "#" then
      let level := line.data.length - (lstripHashCL line.data).length
      let htext := String.mk (stripCL (lstripHashCL line.data))
      processLines
        (acc ++ [String.mk (List.replicate level '=') ++ " " ++ htext])
        false rest
    else
      match reSubLink (reSubItalic (reSubBold (reSubInlineCode line))) with
      | .error e => .error e
      | .ok line2 =>
        if pyIn "|" line2 && pyStartswith (pyStrip line2) "|" then
          let cells := (((splitCharCL '|' line2.data).drop 1).dropLast).map
            (fun c => String.mk (stripCL c))
          let row := "  (" ++
            String.mk (interCommaSpace (cells.map
              (fun c => ("[" ++ c ++ "]").data))) ++ "),"
          if (lastN 3 acc).any (fun tl => pyIn "table(" tl) then
            processLines (acc ++ [row]) false rest
          else
            processLines
              (acc ++ ["#table(", "  columns: " ++ toString cells.length ++ ",", row])
              false rest
        else
          let acc2 :=
            if !acc.isEmpty && (lastN 3 acc).any (fun tl => pyIn "table(" tl)
                && (pyStrip line2 == "") then
              acc ++ [")"]
            else acc
          if pyStrip line2 = "" then processLines (acc2 ++ [""]) false rest
          else processLines (acc2 ++ [line2]) false rest

/-- `convert_markdown_section(markdown, title)`: split on the literal
backslash-`n` token, run the per-line loop, join with the same token.
The `title` parameter is received and never used, as in the source. -/
def convert_markdown_section (markdown : String) (title : String) :
    Except PyExn String :=
  (processLines [] false (splitLines markdown)).map joinLitNL

/-! ## `markdown_to_typst` (lines 161-182) -/

/-- The fixed preamble lines appended before any section. -/
def preambleLines : List String :=
  ["#import \"template.typ\": *",
   "",
   "#show: rata-manual.with(",
   "  title: \"Rata Programming Language Manual\",",
   "  subtitle: \"A Data Engineering Language\",",
   "  version: \"0.0.1-alpha\",",
   "  author: \"The Rata Team\"",
   ")",
   ""]

/-- The per-section loop of `markdown_to_typst`: each section contributes
its converted text followed by an empty line.  A raised exception
propagates. -/
def convertSections : List (String × String) → Except PyExn (List String)
  | [] => .ok []
  | (title, markdown) :: rest => do
    let s ← convert_markdown_section markdown title
    let r ← convertSections rest
    .ok (s :: "" :: r)

/-- `markdown_to_typst(content)`: `content` is the insertion-ordered
title-to-markdown association produced by the collector (whose manifest
titles are distinct). -/
def markdown_to_typst (content : List (String × String)) :
    Except PyExn String :=
  (convertSections content).map
    (fun secs => joinLitNL (preambleLines ++ secs))

/-! ## `collect_markdown_content` (lines 113-159) -/

/-- The hardcoded document structure (lines 118-149): ordered
(relative path, section title) pairs. -/
def manifest : List (String × String) :=
  [("index.md", "Introduction"),
   ("why-rata.md", "Why Rata?"),
   ("basic-concepts.md", "Basic Concepts and Examples"),
   ("compiler-and-elixir.md", "The Rata Compiler and Elixir"),
   ("modules/index.md", "Standard Library Modules"),
   ("modules/core.md", "Core Module"),
   ("modules/math.md", "Math Module"),
   ("modules/table.md", "Table Module"),
   ("modules/vector.md", "Vector Module"),
   ("modules/list.md", "List Module"),
   ("modules/maps.md", "Maps Module"),
   ("modules/set.md", "Set Module"),
   ("modules/enum.md", "Enum Module"),
   ("modules/file.md", "File Module"),
   ("modules/dataload.md", "Dataload Module"),
   ("modules/datetime.md", "Datetime Module"),
   ("modules/json.md", "Json Module"),
   ("modules/process.md", "Process Module"),
   ("modules/log.md", "Log Module"),
   ("modules/stats.md", "Stats Module"),
   ("modules/tests.md", "Tests Module"),
   ("modules/module.md", "Module System"),
   ("modules/struct.md", "Struct Module"),
   ("modules/dabber.md", "Dabber Module"),
   ("modules/types.md", "Types Module"),
   ("modules/macro.md", "Macro Module"),
   ("advanced/index.md", "Advanced Topics"),
   ("examples/index.md", "Examples"),
   ("migration/index.md", "Migration Guides"),
   ("contributing.md", "Contributing to Rata")]

/-- `collect_markdown_content`: the source tree is a partial map from
relative path to file text.  Returns the collected (title, text) pairs
in manifest order together with the paths of the missing files, each of
which only produced a printed warning in the source.  Never fails. -/
def collect_markdown_content (fs : String → Option String) :
    List (String × String) × List String :=
  manifest.foldl
    (fun acc pt =>
      match fs pt.1 with
      | some txt => (acc.1 ++ [(pt.2, txt)], acc.2)
      | none => (acc.1, acc.2 ++ [pt.1]))
    ([], [])

/-! ## `build_all`, `build_pdf`, `main` (lines 28-41, 69-98, 255-301) -/

/-- `build_all(formats)` with the three stage outcomes as oracles
(`build_typst`, `build_pdf`, `build_html` return these booleans when
invoked).  `&=` evaluates its right operand unconditionally, so a stage
runs whenever its guard holds. -/
def build_all (formats : List String) (bT bP bH : Bool) : Bool :=
  let success := true
  let success :=
    if formats.contains "pdf" || formats.contains "typst" then success && bT
    else success
  let success := if formats.contains "pdf" then success && bP else success
  let success := if formats.contains "html" then success && bH else success
  success

/-- Within `build_pdf`, the `subprocess.run(["typst", "compile", ...])`
call is reached exactly when the generated Typst file exists (otherwise
the function returns early at line 76). -/
def build_pdf_reaches_compiler (typstFileExists : Bool) : Bool :=
  typstFileExists

/-- Whether a `build_all` invocation reaches the external compiler
subprocess: `build_pdf` runs only when `"pdf"` is among the requested
formats. -/
def compiler_invoked (formats : List String) (typstFileExists : Bool) : Bool :=
  formats.contains "pdf" && build_pdf_reaches_compiler typstFileExists

/-- `main`'s format selection: `--format all` expands to typst+pdf,
anything else is passed through singleton. -/
def mainFormats (fmt : String) : List String :=
  if fmt == "all" then ["typst", "pdf"] else [fmt]

/-- `main`'s exit status: `sys.exit(1)` when `build_all` returned
`False`, normal termination (status 0) otherwise. -/
def mainExitCode (formats : List String) (bT bP bH : Bool) : Nat :=
  if build_all formats bT bP bH then 0 else 1

/-! ## Helper lemmas -/

theorem hasTok_cons_of (c : Char) (cs : List Char) (h : (c == '\\') = false) :
    hasTok (c :: cs) = hasTok cs := by
  cases cs with
  | nil => rfl
  | cons c2 rest => simp [hasTok, h]

theorem hasTok_append_of (l1 l2 : List Char)
    (h : ∀ c ∈ l1, (c == '\\') = false) :
    hasTok (l1 ++ l2) = hasTok l2 := by
  induction l1 with
  | nil => rfl
  | cons c rest ih =>
    rw [List.cons_append, hasTok_cons_of c _ (h c (by simp))]
    exact ih (fun c hc => h c (by simp [hc]))

theorem splitLitNL_single (cs : List Char) (h : hasTok cs = false) :
    splitLitNL cs = [cs] := by
  induction cs with
  | nil => rfl
  | cons c1 tail ih =>
    cases tail with
    | nil => rfl
    | cons c2 rest =>
      simp only [hasTok, Bool.or_eq_false_iff] at h
      simp only [splitLitNL, h.1, if_false, Bool.false_eq_true]
      rw [ih h.2]

theorem splitLitNL_append (l tail : List Char) (h : hasTok l = false) :
    splitLitNL (l ++ '\\' :: 'n' :: tail) = l :: splitLitNL tail := by
  induction l with
  | nil => simp [splitLitNL]
  | cons c1 rest ih =>
    cases rest with
    | nil =>
      have hcond : (c1 == '\\' && '\\' == 'n') = false := by
        simp [Bool.and_eq_false_iff]
      simp only [List.cons_append, List.nil_append, splitLitNL, hcond,
        Bool.false_eq_true, if_false]
      rfl
    | cons c2 rest2 =>
      simp only [hasTok, Bool.or_eq_false_iff] at h
      have := ih h.2
      simp only [List.cons_append] at this ⊢
      simp only [splitLitNL, h.1, Bool.false_eq_true, if_false, this]

theorem splitLitNL_inter (lss : List (List Char)) (hne : lss ≠ [])
    (h : ∀ l ∈ lss, hasTok l = false) :
    splitLitNL (interData lss) = lss := by
  induction lss with
  | nil => exact absurd rfl hne
  | cons l rest ih =>
    cases rest with
    | nil => exact splitLitNL_single l (h l (by simp))
    | cons l2 rest2 =>
      rw [show interData (l :: l2 :: rest2)
            = l ++ '\\' :: 'n' :: interData (l2 :: rest2) from rfl,
        splitLitNL_append l _ (h l (by simp)),
        ih (by simp) (fun x hx => h x (by simp [hx]))]

theorem string_mk_data (s : String) : String.mk s.data = s := rfl

theorem map_mk_data (ls : List String) :
    (ls.map String.data).map (fun l => String.mk l) = ls := by
  induction ls with
  | nil => rfl
  | cons s rest ih => simp [ih, string_mk_data]

theorem splitLines_single (s : String) (h : hasLitNL s = false) :
    splitLines s = [s] := by
  unfold splitLines
  rw [splitLitNL_single s.data h]
  simp [string_mk_data]

theorem splitLines_join (ls : List String) (hne : ls ≠ [])
    (h : ∀ s ∈ ls, hasLitNL s = false) :
    splitLines (joinLitNL ls) = ls := by
  unfold splitLines joinLitNL
  rw [show (String.mk (interData (ls.map String.data))).data
        = interData (ls.map String.data) from rfl,
    splitLitNL_inter (ls.map String.data) (by simpa using hne)
      (by intro l hl
          obtain ⟨s, hs, rfl⟩ := List.mem_map.mp hl
          exact h s hs)]
  exact map_mk_data ls

theorem joinLitNL_single (s : String) : joinLitNL [s] = s := rfl

theorem isPrefixCL_append (p r : List Char) : isPrefixCL p (p ++ r) = true := by
  induction p with
  | nil => rfl
  | cons c cs ih => simp [isPrefixCL, ih]

theorem lstripHash_replicate (n : Nat) (t : List Char) :
    lstripHashCL (List.replicate n '#' ++ ' ' :: t) = ' ' :: t := by
  induction n with
  | zero => rfl
  | succ m ih =>
    rw [List.replicate_succ, List.cons_append,
      show lstripHashCL ('#' :: (List.replicate m '#' ++ ' ' :: t))
        = lstripHashCL (List.replicate m '#' ++ ' ' :: t) from rfl, ih]

theorem stripCL_space_cons (t : List Char) : stripCL (' ' :: t) = stripCL t := by
  unfold stripCL
  rw [show (' ' :: t).dropWhile pyIsSpace = t.dropWhile pyIsSpace from rfl]

theorem processLines_code (code : List String) (tail acc : List String)
    (h : ∀ c ∈ code, pyStartswith c "```" = false) :
    processLines acc true (code ++ tail) = processLines (acc ++ code) true tail := by
  induction code generalizing acc with
  | nil => simp
  | cons c cs ih =>
    rw [List.cons_append,
      show processLines acc true (c :: (cs ++ tail))
          = if pyStartswith c "```" then processLines (acc ++ ["```"]) false (cs ++ tail)
            else processLines (acc ++ [c]) true (cs ++ tail) by
        simp [processLines],
      if_neg (by simp [h c (by simp)]),
      ih (acc ++ [c]) (fun x hx => h x (by simp [hx]))]
    simp

/-! ## Claim theorems -/

/-- C3: the claim states that `**x**` rewrites to `*x*` and `*x*` to
`_x_`.  The code does neither: the bold substitution (its pattern, with
doubled backslashes, matches every maximal run of non-asterisk
characters and its template inserts a literal backslash-`1`) turns
`**x**` into `***\1***` and `*x*` into `**\1**`, the italic substitution
then wraps the literal `\1` in underscores, and the subsequent link
substitution raises `re.error` because its pattern does not compile, so
`convert_markdown_section` raises on both inputs instead of producing
any output. -/
theorem c3_bold_italic_code_behavior :
    reSubBold "**x**" = "***\\1***" ∧
    reSubItalic (reSubBold "**x**") = "***_\\1_***" ∧
    reSubBold "*x*" = "**\\1**" ∧
    reSubItalic (reSubBold "*x*") = "**_\\1_**" ∧
    convert_markdown_section "**x**" "Title" = .error PyExn.reUnbalancedParen ∧
    convert_markdown_section "*x*" "Title" = .error PyExn.reUnbalancedParen :=
  ⟨rfl, rfl, rfl, rfl, rfl, rfl⟩

/-- C4: the claim states that `[Label](http://example.com)` becomes a
Typst link call.  In the code the link pattern is syntactically invalid,
so `re.sub` raises `re.error` and `convert_markdown_section` raises on
the line; no link construct is ever produced.  Even the substitutions
that run before the link rule already destroy the line, rewriting it to
the literal text `*_\1_*`. -/
theorem c4_link_code_behavior :
    convert_markdown_section "[Label](http://example.com)" "Title"
      = .error PyExn.reUnbalancedParen ∧
    reSubItalic (reSubBold (reSubInlineCode "[Label](http://example.com)"))
      = "*_\\1_*" :=
  ⟨rfl, rfl⟩

/-- C5: the claim states that `| a | b | c |` becomes a three-cell Typst
row (opening a table if needed).  The code never reaches its table
branch: the bold substitution first collapses the whole pipe row (a
single run of non-asterisk characters) to the literal text `*\1*`, and
the link substitution, which runs before the table check, then raises
`re.error`, so `convert_markdown_section` raises on the input. -/
theorem c5_table_row_code_behavior :
    convert_markdown_section "| a | b | c |" "Title"
      = .error PyExn.reUnbalancedParen ∧
    reSubBold "| a | b | c |" = "*\\1*" ∧
    reSubItalic (reSubBold "| a | b | c |") = "*_\\1_*" :=
  ⟨rfl, rfl, rfl⟩

/-- C6: line splitting and joining operate on the literal two-character
sequence backslash-`n`, not on the newline character.  First conjunct:
any markdown without that literal sequence is processed as a single line
(even if it contains real newlines).  Second conjunct: a section whose
text contains a real newline stays one line, here one heading.  Third
conjunct: the document emitted by `markdown_to_typst` separates its
lines with the two characters backslash and `n` (the Lean escape `\\n`
below denotes exactly those two characters, while `\n` would be a
newline). -/
theorem c6_literal_backslash_n :
    (∀ md title, hasLitNL md = false →
      convert_markdown_section md title
        = (processLines [] false [md]).map joinLitNL) ∧
    convert_markdown_section "# Overview\nof Rata" "Title"
      = .ok "= Overview\nof Rata" ∧
    markdown_to_typst [("A", "# One"), ("B", "# Two")]
      = .ok ("#import \"template.typ\": *\\n\\n#show: rata-manual.with(\\n  title: \"Rata Programming Language Manual\",\\n  subtitle: \"A Data Engineering Language\",\\n  version: \"0.0.1-alpha\",\\n  author: \"The Rata Team\"\\n)\\n\\n= One\\n\\n= Two\\n") := by
  refine ⟨?_, rfl, rfl⟩
  intro md title h
  unfold convert_markdown_section
  rw [splitLines_single md h]

/-- Witness for C6 at a concrete input with no literal backslash-`n`. -/
theorem c6_literal_backslash_n_witness :
    convert_markdown_section "plain text" "Title"
      = (processLines [] false ["plain text"]).map joinLitNL :=
  c6_literal_backslash_n.1 "plain text" "Title" (by decide)

/-- C9: when the requested formats are exactly `["typst"]`, the
`subprocess.run` invocation of the external Typst compiler inside
`build_pdf` is never reached, whatever the state of the generated
file. -/
theorem c9_typst_only_no_compiler (typstFileExists : Bool) :
    compiler_invoked ["typst"] typstFileExists = false := rfl

/-- C10: the `title` parameter of `convert_markdown_section` is never
used, so conversion is identical under any two titles; consequently the
document produced by `markdown_to_typst` depends only on the sequence of
markdown texts, not on the section titles, which serve merely as keys of
the collected mapping. -/
theorem c10_title_irrelevance :
    (∀ md t1 t2, convert_markdown_section md t1 = convert_markdown_section md t2) ∧
    (∀ c1 c2 : List (String × String), c1.map Prod.snd = c2.map Prod.snd →
      markdown_to_typst c1 = markdown_to_typst c2) := by
  constructor
  · intro md t1 t2; rfl
  · have hsec : ∀ c1 c2 : List (String × String),
        c1.map Prod.snd = c2.map Prod.snd →
        convertSections c1 = convertSections c2 := by
      intro c1
      induction c1 with
      | nil =>
        intro c2 h
        cases c2 with
        | nil => rfl
        | cons b r2 => simp at h
      | cons a r1 ih =>
        intro c2 h
        cases c2 with
        | nil => simp at h
        | cons b r2 =>
          simp only [List.map_cons, List.cons.injEq] at h
          obtain ⟨hab, hr⟩ := h
          show convertSections ((a.1, a.2) :: r1) = convertSections ((b.1, b.2) :: r2)
          simp only [convertSections]
          rw [hab, ih r2 hr,
            show convert_markdown_section b.2 a.1
              = convert_markdown_section b.2 b.1 from rfl]
    intro c1 c2 h
    unfold markdown_to_typst
    rw [hsec c1 c2 h]

/-- Witness for C10: two sections with the same markdown and different
titles produce the same document. -/
theorem c10_title_irrelevance_witness :
    markdown_to_typst [("A", "# h")] = markdown_to_typst [("B", "# h")] :=
  c10_title_irrelevance.2 [("A", "# h")] [("B", "# h")] rfl

/-- C8: for any list of requested formats and any outcomes of the three
build stages, the process exit code is non-zero exactly when some
requested format's build reported failure, where (as in `build_all`) the
pdf format's build comprises the typst-generation stage followed by the
pdf stage, and the typst and html formats are their single stages. -/
theorem c8_exit_code_iff (formats : List String) (bT bP bH : Bool) :
    mainExitCode formats bT bP bH ≠ 0 ↔
      ((formats.contains "typst" = true ∧ bT = false) ∨
       (formats.contains "pdf" = true ∧ (bT && bP) = false) ∨
       (formats.contains "html" = true ∧ bH = false)) := by
  unfold mainExitCode build_all
  cases h1 : formats.contains "typst" <;>
    cases h2 : formats.contains "pdf" <;>
      cases h3 : formats.contains "html" <;>
        cases bT <;> cases bP <;> cases bH <;>
          simp [h1, h2, h3]

/-- C7: the collected content lists the manifest entries whose file
exists, in manifest order, paired with their file text; each missing
file contributes exactly one warning (its path, in manifest order) and
nothing else — collection itself never fails, being a total function.
Moreover the generated document is the fixed preamble followed by the
collected sections' conversions in that same order, with no artifact for
a skipped entry. -/
theorem c7_manifest_ordering (fs : String → Option String) :
    (collect_markdown_content fs).1
      = manifest.filterMap (fun pt => (fs pt.1).map (fun txt => (pt.2, txt))) ∧
    (collect_markdown_content fs).2
      = (manifest.filter (fun pt => (fs pt.1).isNone)).map Prod.fst ∧
    (∀ secs, convertSections (collect_markdown_content fs).1 = .ok secs →
      markdown_to_typst (collect_markdown_content fs).1
        = .ok (joinLitNL (preambleLines ++ secs))) := by
  have hfold : ∀ (entries : List (String × String)) accC accW,
      entries.foldl
        (fun acc pt =>
          match fs pt.1 with
          | some txt => (acc.1 ++ [(pt.2, txt)], acc.2)
          | none => (acc.1, acc.2 ++ [pt.1]))
        (accC, accW)
      = (accC ++ entries.filterMap (fun pt => (fs pt.1).map (fun txt => (pt.2, txt))),
         accW ++ (entries.filter (fun pt => (fs pt.1).isNone)).map Prod.fst) := by
    intro entries
    induction entries with
    | nil => intro accC accW; simp
    | cons e rest ih =>
      intro accC accW
      rcases he : fs e.1 with _ | txt <;>
        simp [List.foldl_cons, he, ih, List.filterMap_cons, List.filter_cons]
  refine ⟨?_, ?_, ?_⟩
  · show (collect_markdown_content fs).1 = _
    unfold collect_markdown_content
    rw [hfold]
    simp
  · show (collect_markdown_content fs).2 = _
    unfold collect_markdown_content
    rw [hfold]
    simp
  · intro secs h
    unfold markdown_to_typst
    rw [h]
    rfl

/-- Witness for C7: a source tree containing only `index.md`; the
document is the preamble followed by that single converted section. -/
theorem c7_manifest_ordering_witness :
    markdown_to_typst
        (collect_markdown_content
          (fun p => if p = "index.md" then some "# Intro" else none)).1
      = .ok (joinLitNL (preambleLines ++ ["= Intro", ""])) :=
  (c7_manifest_ordering
    (fun p => if p = "index.md" then some "# Intro" else none)).2.2
    ["= Intro", ""] rfl

/-- C1: a single heading line of `n ≥ 1` hash characters, a space and
arbitrary text (free of the literal backslash-`n` separator, so that it
is one line for the splitter) converts to `n` equals signs, a space, and
the text stripped of leading and trailing whitespace; the heading branch
short-circuits every later per-line rule, including the raising link
substitution. -/
theorem c1_heading_conversion (n : Nat) (text title : String) (hn : 1 ≤ n)
    (ht : hasLitNL text = false) :
    convert_markdown_section
        (String.mk (List.replicate n '#') ++ " " ++ text) title
      = .ok (String.mk (List.replicate n '=') ++ " " ++ pyStrip text) := by
  obtain ⟨m, rfl⟩ : ∃ m, n = m + 1 := ⟨n - 1, (Nat.succ_pred_eq_of_pos hn).symm⟩
  set line := String.mk (List.replicate (m + 1) '#') ++ " " ++ text with hline_def
  have hdata : line.data = List.replicate (m + 1) '#' ++ ' ' :: text.data := by
    rw [hline_def, String.data_append, String.data_append]
    simp [List.append_assoc]
  have hnotok : hasLitNL line = false := by
    unfold hasLitNL
    rw [hdata,
      show List.replicate (m + 1) '#' ++ ' ' :: text.data
        = (List.replicate (m + 1) '#' ++ [' ']) ++ text.data by simp,
      hasTok_append_of _ _ ?hside]
    · exact ht
    case hside =>
      intro c hc
      rcases List.mem_append.mp hc with h1 | h1
      · rw [List.eq_of_mem_replicate h1]; rfl
      · simp only [List.mem_singleton] at h1; rw [h1]; rfl
  have hs1 : pyStartswith line "```" = false := by
    unfold pyStartswith
    rw [hdata, List.replicate_succ, List.cons_append]
    rfl
  have hs2 : pyStartswith line "#" = true := by
    unfold pyStartswith
    rw [hdata, List.replicate_succ, List.cons_append]
    rfl
  have hlstrip : lstripHashCL line.data = ' ' :: text.data := by
    rw [hdata]; exact lstripHash_replicate _ _
  have hlevel : line.data.length - (lstripHashCL line.data).length = m + 1 := by
    rw [hlstrip, hdata]
    simp
  have hstrip : String.mk (stripCL (lstripHashCL line.data)) = pyStrip text := by
    rw [hlstrip]; unfold pyStrip; rw [stripCL_space_cons]
  unfold convert_markdown_section
  rw [splitLines_single line hnotok]
  simp only [processLines, hs1, hs2, Bool.false_eq_true, Bool.true_eq_false,
    if_false, if_true, List.nil_append, hlevel, hstrip]
  simp [Except.map, joinLitNL_single]

/-- Witness for C1: the heading line with two hashes and text with
trailing whitespace. -/
theorem c1_heading_conversion_witness :
    convert_markdown_section
        (String.mk (List.replicate 2 '#') ++ " " ++ "Hello  ") "Title"
      = .ok (String.mk (List.replicate 2 '=') ++ " " ++ pyStrip "Hello  ") :=
  c1_heading_conversion 2 "Hello  " "Title" (by decide) (by decide)

theorem processLines_fence_open (line : String) (acc rest : List String)
    (hsw : pyStartswith line "```" = true)
    (hne : pyStrip (strDrop line 3) ≠ "")
    (hnr : pyStrip (strDrop line 3) ≠ "rata") :
    processLines acc false (line :: rest)
      = processLines (acc ++ ["```" ++ pyStrip (strDrop line 3)]) true rest := by
  simp [processLines, hsw, hne, hnr]

theorem processLines_fence_open_rata (line : String) (acc rest : List String)
    (hsw : pyStartswith line "```" = true)
    (heq : pyStrip (strDrop line 3) = "rata") :
    processLines acc false (line :: rest)
      = processLines (acc ++ ["#rata-code[```rata"]) true rest := by
  simp [processLines, hsw, heq]

/-- C2: converting an opening fence line carrying a (tidy, nonempty)
language tag, arbitrary verbatim code lines (none of which starts a
fence or contains the literal line separator), and a closing fence
yields exactly one open-fence construct — the wrapped
`#rata-code[```rata` form when the tag is `rata`, a plain tagged fence
otherwise — the code body verbatim, and exactly one plain closing
fence, with no other rule touching the code. -/
theorem c2_code_fence_structure (lang : String) (code : List String)
    (title : String)
    (h1 : lang ≠ "")
    (h2 : pyStrip lang = lang)
    (h3 : hasLitNL lang = false)
    (h4 : ∀ c ∈ code, hasLitNL c = false)
    (h5 : ∀ c ∈ code, pyStartswith c "```" = false) :
    convert_markdown_section
        (joinLitNL (("```" ++ lang) :: (code ++ ["```"]))) title
      = .ok (joinLitNL
          ((if lang = "rata" then "#rata-code[```rata" else "```" ++ lang)
            :: (code ++ ["```"]))) := by
  have hfen : hasLitNL ("```" ++ lang) = false := by
    unfold hasLitNL
    rw [String.data_append, show "```".data = ['`', '`', '`'] from rfl,
      hasTok_append_of _ _ ?hside]
    · exact h3
    case hside =>
      intro c hc
      simp only [List.mem_cons, List.not_mem_nil, or_false] at hc
      rcases hc with rfl | rfl | rfl <;> rfl
  have hsplit : splitLines (joinLitNL (("```" ++ lang) :: (code ++ ["```"])))
      = ("```" ++ lang) :: (code ++ ["```"]) := by
    apply splitLines_join
    · simp
    · intro s hs
      simp only [List.mem_cons, List.mem_append, List.mem_singleton,
        List.not_mem_nil, or_false] at hs
      rcases hs with rfl | hs | rfl
      · exact hfen
      · exact h4 s hs
      · rfl
  have hsw : pyStartswith ("```" ++ lang) "```" = true := by
    unfold pyStartswith
    rw [String.data_append, show "```".data = ['`', '`', '`'] from rfl]
    exact isPrefixCL_append _ _
  have hparts : pyStrip (strDrop ("```" ++ lang) 3) = lang := by
    unfold strDrop
    rw [String.data_append, show "```".data = ['`', '`', '`'] from rfl,
      show (['`', '`', '`'] ++ lang.data).drop 3 = lang.data from rfl,
      string_mk_data]
    exact h2
  have hne : pyStrip (strDrop ("```" ++ lang) 3) ≠ "" := by
    rw [hparts]; exact h1
  have hcont : ∀ acc, processLines acc true (code ++ ["```"])
      = .ok (acc ++ (code ++ ["```"])) := by
    intro acc
    rw [processLines_code code ["```"] acc h5,
      show processLines (acc ++ code) true ["```"]
        = processLines ((acc ++ code) ++ ["```"]) false [] by
          simp [processLines, pyStartswith, isPrefixCL]]
    simp [processLines, List.append_assoc]
  by_cases hr : lang = "rata"
  · have heq : pyStrip (strDrop ("```" ++ lang) 3) = "rata" := hparts.trans hr
    unfold convert_markdown_section
    rw [hsplit, processLines_fence_open_rata _ _ _ hsw heq, hcont]
    simp [Except.map, hr]
  · have hnr : pyStrip (strDrop ("```" ++ lang) 3) ≠ "rata" := by
      rw [hparts]; exact hr
    unfold convert_markdown_section
    rw [hsplit, processLines_fence_open _ _ _ hsw hne hnr, hcont, hparts]
    simp [Except.map, hr]

/-- Witness for C2: a rata-tagged fence with one code line. -/
theorem c2_code_fence_structure_witness :
    convert_markdown_section
        (joinLitNL (("```" ++ "rata") :: (["x = 1"] ++ ["```"]))) "Title"
      = .ok (joinLitNL
          ((if "rata" = "rata" then "#rata-code[```rata" else "```" ++ "rata")
            :: (["x = 1"] ++ ["```"]))) :=
  c2_code_fence_structure "rata" ["x = 1"] "Title" (by decide) (by decide)
    (by decide) (by decide) (by decide)

end RataBuild
